import Mathlib

/-!
Shallow embedding of the tabular aggregation / normalization engine of the
repository (the plotting scripts of Lab5, Lab6 and Lab7).  Numeric cell
values are modelled as `ℚ` (missing values as `Option ℚ`); non-finite
values are not representable in `ℚ` and are modelled as missing, which
matches how every downstream computation treated here handles them
(Lab5 replaces infinities with NaN before pivoting, Lab6 and Lab7 map the
textual infinity spellings they recognise to NaN at ingestion).
-/

namespace CompMethods

/-- Round a rational to the nearest integer, ties to even — the rounding
mode used by `pandas.DataFrame.round` and Python's float formatting. -/
def roundHalfEven (q : ℚ) : ℤ :=
  let f := ⌊q⌋
  let r := q - f
  if r < 1/2 then f
  else if 1/2 < r then f + 1
  else if f % 2 = 0 then f else f + 1

/-- Python `round(x, 1)`: rounding to one decimal digit, the axis-bucketing rule
applied to the iterated coordinate in `create_pivot_table`
(`df_filtered[iterated_col].round(1)`). -/
def round1 (q : ℚ) : ℚ :=
  (roundHalfEven (q * 10) : ℚ) / 10

/-- Numpy `np.isclose` with its default tolerances `rtol=1e-5`, `atol=1e-8`:
`|a - b| <= atol + rtol * |b|`. -/
def isclose (a b : ℚ) : Bool :=
  |a - b| ≤ 1/100000000 + |b|/100000

/-- One raw CSV cell before numeric coercion. `text` is a cell that is not
a numeral (numerals are already carried as `num`); `missing` is NaN. -/
inductive Cell where
  | text (s : String)
  | num (q : ℚ)
  | missing
  | posInf
  | negInf
deriving DecidableEq, Repr

/-- Pandas `DataFrame.replace(targets, to)` restricted to one cell: textual cells
matching one of `targets` become `to`, everything else is unchanged. -/
def replaceWith (targets : List String) (repl : Cell) (c : Cell) : Cell :=
  match c with
  | Cell.text s => if s ∈ targets then repl else c
  | _ => c

/-- Lab5 ingestion, sentinel-replacement step
(`df.replace(['NAN','nan','NaN'], nan)`, then `['INF','inf','Inf'] → inf`,
then `['-INF','-inf','-Inf'] → -inf`). -/
def lab5Replace (c : Cell) : Cell :=
  replaceWith ["-INF", "-inf", "-Inf"] Cell.negInf
    (replaceWith ["INF", "inf", "Inf"] Cell.posInf
      (replaceWith ["NAN", "nan", "NaN"] Cell.missing c))

/-- Lab6 ingestion, sentinel-replacement step: the NaN spellings and all
six infinity spellings are replaced with NaN. -/
def lab6Replace (c : Cell) : Cell :=
  replaceWith ["INF", "inf", "Inf", "-INF", "-inf", "-Inf"] Cell.missing
    (replaceWith ["NAN", "nan", "NaN"] Cell.missing c)

/-- Lab7 ingestion, sentinel-replacement step
(`df.replace(['NAN','nan','NaN','inf','Inf','-inf','-Inf'], nan)`);
note that `'INF'` and `'-INF'` are not in the list. -/
def lab7Replace (c : Cell) : Cell :=
  replaceWith ["NAN", "nan", "NaN", "inf", "Inf", "-inf", "-Inf"] Cell.missing c

/-- Pandas `pd.to_numeric(errors='coerce')` on one cell of the `ℚ` model:
numerals survive, NaN and non-numeric text become missing.  Non-finite
cells are also mapped to missing (see the module comment). -/
def toNum (c : Cell) : Option ℚ :=
  match c with
  | Cell.num q => some q
  | _ => none

/-- Truncation toward zero, the effect of `.astype(int)` on a float. -/
def truncQ (q : ℚ) : ℤ :=
  if 0 ≤ q then ⌊q⌋ else -⌊-q⌋

/-- NaN-skipping minimum of a list of present values (`Series.min`). -/
def qmin? : List ℚ → Option ℚ
  | [] => none
  | x :: xs =>
    match qmin? xs with
    | none => some x
    | some m => some (min x m)

/-- NaN-skipping maximum of a list of present values (`Series.max`). -/
def qmax? : List ℚ → Option ℚ
  | [] => none
  | x :: xs =>
    match qmax? xs with
    | none => some x
    | some m => some (max x m)

/-- The display scale chosen for a heatmap: either the default linear
normalization or `LogNorm(vmin, vmax)`. -/
inductive Scale where
  | linear
  | log (vmin vmax : ℚ)
deriving DecidableEq, Repr

/-- The finite, non-missing values of a grid
(`data.unstack().dropna()`). -/
def finiteVals (cells : List (Option ℚ)) : List ℚ :=
  cells.filterMap id

/-- The strictly positive finite values of a grid
(`valid_data[valid_data > 0]`). -/
def posVals (cells : List (Option ℚ)) : List ℚ :=
  (finiteVals cells).filter (fun v => decide (0 < v))

/-- Scale selection of Lab7 `create_heatmap` (lines 119-128):
`min_val = positive.min() if nonempty else 1e-16`,
`max_val = positive.max() if nonempty else 1.0`, then `LogNorm` iff
`min_val > 0 and max_val > min_val`. -/
def lab7ScaleNorm (cells : List (Option ℚ)) : Scale :=
  let minVal := (qmin? (posVals cells)).getD (1 / 10 ^ 16)
  let maxVal := (qmax? (posVals cells)).getD 1
  if 0 < minVal ∧ minVal < maxVal then Scale.log minVal maxVal else Scale.linear

/-- Scale selection of Lab5 `create_heatmap` (lines 95-107):
`min_val = positive.min() if nonempty else None`,
`max_val = valid.max()`; linear iff `min_val` is `None`/NaN, otherwise
`LogNorm(min_val, max_val)` with no further check. -/
def lab5ScaleNorm (cells : List (Option ℚ)) : Scale :=
  match qmin? (posVals cells), qmax? (finiteVals cells) with
  | some mn, some mx => Scale.log mn mx
  | _, _ => Scale.linear

/-- Left-pad a digit string with zeros to width `k` (fractional part of a
fixed-point rendering). -/
def padLeftZeros (k : ℕ) (s : String) : String :=
  if k ≤ s.length then s else String.mk (List.replicate (k - s.length) '0') ++ s

/-- Fixed-point rendering with `k` decimals on a nonnegative rational. -/
def formatFixedAux (k : ℕ) (q : ℚ) : String :=
  toString (roundHalfEven (q * 10 ^ k) / (10 ^ k : ℤ)) ++ "." ++
    padLeftZeros k (toString (roundHalfEven (q * 10 ^ k) % (10 ^ k : ℤ)))

/-- Python `f"{q:.<k>f}"`: fixed-point rendering with `k` decimals,
round-half-even. -/
def formatFixed (k : ℕ) (q : ℚ) : String :=
  if q < 0 then "-" ++ formatFixedAux k (-q) else formatFixedAux k q

/-- Python `f"{q:.5f}"`. -/
def format5f (q : ℚ) : String := formatFixed 5 q

/-- The decimal exponent of a positive rational: the unique `e` with
`10 ^ e ≤ q < 10 ^ (e + 1)`. -/
def exp10 (q : ℚ) : ℤ :=
  if 1 ≤ q then (Nat.log 10 ⌊q⌋.toNat : ℤ) else -(Nat.clog 10 ⌈q⁻¹⌉.toNat : ℤ)

/-- Exponent field of a `%.1e` rendering: sign always shown, at least two
digits. -/
def expStr (e : ℤ) : String :=
  let d := toString e.natAbs
  (if e < 0 then "e-" else "e+") ++ (if d.length < 2 then "0" ++ d else d)

/-- The two leading mantissa digits of a positive rational, rounded
half-even (between 10 and 100; 100 when the mantissa rounds up to the
next decade). -/
def mant10 (q : ℚ) : ℤ :=
  roundHalfEven (q / (10 : ℚ) ^ exp10 q * 10)

/-- Python `"%.1e"` on a positive rational: one mantissa digit before the point,
one after, round-half-even, with carry into the exponent. -/
def sci1Aux (q : ℚ) : String :=
  if 100 ≤ mant10 q then "1.0" ++ expStr (exp10 q + 1)
  else toString (mant10 q / 10) ++ "." ++ toString (mant10 q % 10) ++ expStr (exp10 q)

/-- Python `f"{q:.1e}"`: scientific rendering with one decimal. -/
def sci1 (q : ℚ) : String :=
  if q = 0 then "0.0e+00"
  else if q < 0 then "-" ++ sci1Aux (-q) else sci1Aux q

/-- Constant `REFERENCE_ROOT_1` of Lab7 `plot_results.py`. -/
def refRoot1 : ℚ := 0

/-- Constant `REFERENCE_ROOT_2` of Lab7 `plot_results.py`. -/
def refRoot2 : ℚ := -1

/-- Lab7 `format_root_error_pl(root_value, status)`: the value cell of the
plain text table.  The root is `Option ℚ` (`none` = NaN). -/
def formatRootErrorPl (status : ℤ) (root : Option ℚ) : String :=
  if status = 1 then "BŁĄD (MaxIter)"
  else if status = 2 then "BŁĄD (Stagnacja)"
  else if status ≠ 0 then "BŁĄD (" ++ toString status ++ ")"
  else
    match root with
    | none => "NaN"
    | some v =>
      format5f v ++ " (Błąd: " ++ sci1 (min |v - refRoot1| |v - refRoot2|) ++ ")"

/-- Lab7 `format_root_for_latex(root_value, status)`: the value cell of
the markup table. -/
def formatRootForLatex (status : ℤ) (root : Option ℚ) : String :=
  if status = 1 then "MaxIter"
  else if status = 2 then "Stagnacja"
  else if status ≠ 0 then "Błąd (" ++ toString status ++ ")"
  else
    match root with
    | none => "NaN"
    | some v => formatFixed 6 v

/-- Lab7 `main`, line 422: the genuine root error — the distance of a
successfully found root to the nearest reference root, NaN otherwise
(`min(|Root - 0.0|, |Root - (-1.0)|) if Status == 0 and notna(Root)
else nan`). -/
def rootError (status : ℤ) (root : Option ℚ) : Option ℚ :=
  if status = 0 then root.map (fun v => min |v - refRoot1| |v - refRoot2|) else none

/-- Constant `max_possible_error_proxy` of Lab7 `main`, line 423. -/
def maxPossibleErrorProxy : ℚ := 10

/-- Lab7 `main`, line 424: the display-grid error column,
`df['RootError'].fillna(max_possible_error_proxy)`. -/
def rootErrorPlot (status : ℤ) (root : Option ℚ) : ℚ :=
  (rootError status root).getD maxPossibleErrorProxy

/-- One ingested row of the Lab7 root-finding result table (after numeric
coercion; `none` = NaN, `status` already coerced to an integer). -/
structure Row where
  method : String
  stopCriterion : String
  x0 : Option ℚ
  x1 : Option ℚ
  precisionRho : Option ℚ
  root : Option ℚ
  iterations : Option ℚ
  finalError : Option ℚ
  status : ℤ
deriving DecidableEq, Repr

/-- One raw row of the Lab7 CSV before ingestion. -/
structure RawRow where
  method : String
  stopCriterion : String
  x0 : Cell
  x1 : Cell
  precisionRho : Cell
  root : Cell
  iterations : Cell
  finalError : Cell
  status : Cell
deriving DecidableEq, Repr

/-- Lab7 `main`, lines 385-388, on one row: sentinel replacement, numeric
coercion of the numeric columns, and status coercion with
`.fillna(-1).astype(int)`. -/
def lab7IngestRow (r : RawRow) : Row where
  method := r.method
  stopCriterion := r.stopCriterion
  x0 := toNum (lab7Replace r.x0)
  x1 := toNum (lab7Replace r.x1)
  precisionRho := toNum (lab7Replace r.precisionRho)
  root := toNum (lab7Replace r.root)
  iterations := toNum (lab7Replace r.iterations)
  finalError := toNum (lab7Replace r.finalError)
  status :=
    match toNum (lab7Replace r.status) with
    | some q => truncQ q
    | none => -1

/-- Lab7 ingestion of the whole table.  No row is dropped. -/
def lab7Ingest (rs : List RawRow) : List Row :=
  rs.map lab7IngestRow

/-- One ingested row of the Lab5 approximation-error table after numeric
coercion and before the coordinate dropna. -/
structure Lab5Row where
  n : Option ℚ
  m : Option ℚ
  maxAbsoluteError : Option ℚ
  meanSquaredError : Option ℚ
deriving DecidableEq, Repr

/-- Lab5 `main`, line 176: `df.dropna(subset=['N','M'])` — keep exactly
the rows whose grouping coordinates are both present. -/
def lab5DropMissingCoords (rs : List Lab5Row) : List Lab5Row :=
  rs.filter (fun r => r.n.isSome && r.m.isSome)

/-- Lab7 `create_pivot_table`: the facet filter for the Newton method
(`Method == 'Newton' and StopCriterion == sc`; `x0` is the iterated
column, no fixed-coordinate filter). -/
def newtonFacetRows (df : List Row) (sc : String) : List Row :=
  df.filter (fun r => r.method == "Newton" && r.stopCriterion == sc)

/-- Lab7 `create_pivot_table`: the facet filter for the Secant method —
rows of the method and stop criterion whose `x0` is `np.isclose` to the
fixed value (a NaN `x0` never matches). -/
def secantFacetRows (df : List Row) (sc : String) (fixedX0 : ℚ) : List Row :=
  df.filter (fun r =>
    r.method == "Secant" && r.stopCriterion == sc &&
      (match r.x0 with
       | some x => isclose x fixedX0
       | none => false))

/-- The (precision, bucketed iterated coordinate, metric value) entries a
facet contributes to the pivot: the iterated column is bucketed with
`round(1)` and rows whose precision or iterated coordinate is missing are
dropped by the groupby. -/
def pivotEntries (rows : List Row) (xCol : Row → Option ℚ)
    (valCol : Row → Option ℚ) : List (ℚ × ℚ × Option ℚ) :=
  rows.filterMap (fun r =>
    match r.precisionRho, xCol r with
    | some y, some x => some (y, round1 x, valCol r)
    | _, _ => none)

/-- The `first` aggregation of `pivot_table`: the first non-missing value of
the group (the argument list already holds only the non-missing values,
in row order). -/
def aggFirst (vs : List ℚ) : Option ℚ :=
  vs.head?

/-- The `min` aggregation of `pivot_table`, skipping missing values. -/
def aggMin : List ℚ → Option ℚ
  | [] => none
  | x :: xs => some (xs.foldl min x)

/-- The `mean` aggregation of `pivot_table`, skipping missing values. -/
def aggMean (vs : List ℚ) : Option ℚ :=
  if vs.isEmpty then none else some (vs.sum / vs.length)

/-- One cell of the pivoted grid: the aggregator applied to the
non-missing metric values of the (row-bucket, column-bucket) group. -/
def gridCell (es : List (ℚ × ℚ × Option ℚ)) (agg : List ℚ → Option ℚ)
    (y x : ℚ) : Option ℚ :=
  agg ((es.filter (fun e => e.1 == y && e.2.1 == x)).filterMap (fun e => e.2.2))

/-- The distinct row-axis (precision) values of the pivot, as grouped. -/
def rowAxis (es : List (ℚ × ℚ × Option ℚ)) : List ℚ :=
  (es.map (fun e => e.1)).dedup

/-- The distinct column-axis (iterated coordinate) values of the pivot,
as grouped. -/
def colAxis (es : List (ℚ × ℚ × Option ℚ)) : List ℚ :=
  (es.map (fun e => e.2.1)).dedup

/-- One cell of the Lab5 heatmap grid: `pivot` falls back to
`pivot_table(aggfunc=np.mean)` when duplicate `(N, M)` keys exist, and the
mean of a singleton group is the value itself, so every cell is the mean
of its group's non-missing values. -/
def lab5GridCell (rows : List (ℤ × ℤ × Option ℚ)) (n m : ℤ) : Option ℚ :=
  aggMean ((rows.filter (fun e => e.1 == n && e.2.1 == m)).filterMap (fun e => e.2.2))

/-- Lab7 `infer_bounds(df)`: NaN-tolerant minimum and maximum pooled over
both coordinate columns `x0` and `x1`, with the default interval
`(-1.4, 0.6)` when no values exist. -/
def inferBounds (df : List Row) : ℚ × ℚ :=
  let pool := df.filterMap Row.x0 ++ df.filterMap Row.x1
  match qmin? pool, qmax? pool with
  | some a, some b => (a, b)
  | _, _ => (-7/5, 3/5)

/-- One heatmap facet enumerated by Lab7 `main`: either the Newton facet
of a stop criterion, or a Secant facet with a fixed `x0` value. -/
inductive Facet where
  | newton (sc : String)
  | secant (sc : String) (fixedX0 : ℚ)
deriving DecidableEq, Repr

/-- Membership of a row in a heatmap facet, as `create_pivot_table`
filters it. -/
def memFacet (r : Row) : Facet → Bool
  | Facet.newton sc => r.method == "Newton" && r.stopCriterion == sc
  | Facet.secant sc fx =>
    r.method == "Secant" && r.stopCriterion == sc &&
      (match r.x0 with
       | some x => isclose x fx
       | none => false)

/-- The distinct stop-criterion keys of the dataset
(`df['StopCriterion'].unique()`). -/
def uniqueSC (df : List Row) : List String :=
  (df.map Row.stopCriterion).dedup

/-- The distinct method keys of the dataset (`df['Method'].unique()`). -/
def uniqueMethods (df : List Row) : List String :=
  (df.map Row.method).dedup

/-- The heatmap facets enumerated by Lab7 `main`: per stop criterion, the
Newton facet and the two Secant facets fixed at the inferred bounds. -/
def mainFacets (df : List Row) : List Facet :=
  (uniqueSC df).flatMap (fun sc =>
    [Facet.newton sc,
     Facet.secant sc (inferBounds df).1,
     Facet.secant sc (inferBounds df).2])

/-- The table facets enumerated by `generate_tables`: the product of the
distinct stop criteria (outer loop) and the distinct methods (inner
loop). -/
def tableFacetPairs (df : List Row) : List (String × String) :=
  (uniqueSC df).flatMap (fun sc => (uniqueMethods df).map (fun m => (m, sc)))

/-- Lab7 `main`: the Newton iteration-count pivot — default aggregator
`'first'` (`create_pivot_table(df, 'Newton', sc, val_col='Iterations')`). -/
def pivotNewtonIterCell (df : List Row) (sc : String) (y x : ℚ) : Option ℚ :=
  gridCell (pivotEntries (newtonFacetRows df sc) Row.x0 Row.iterations) aggFirst y x

/-- Lab7 `main`: the Newton root-error pivot — values
`RootError_Plot`, aggregator `'min'`. -/
def pivotNewtonErrCell (df : List Row) (sc : String) (y x : ℚ) : Option ℚ :=
  gridCell
    (pivotEntries (newtonFacetRows df sc) Row.x0
      (fun r => some (rootErrorPlot r.status r.root)))
    aggMin y x

/-- A dataframe row together with the two derived error columns `main`
assigns inside the stop-criterion loop (`none` = the column has not been
assigned yet). -/
structure RowX where
  base : Row
  rootErrorCol : Option (Option ℚ)
  rootErrorPlotCol : Option ℚ
deriving DecidableEq, Repr

/-- Lab7 `main`, lines 422-424, on one row: assign (or overwrite) the
`RootError` and `RootError_Plot` columns from the ingested `Status` and
`Root` columns. -/
def augmentRow (r : RowX) : RowX where
  base := r.base
  rootErrorCol := some (rootError r.base.status r.base.root)
  rootErrorPlotCol := some (rootErrorPlot r.base.status r.base.root)

/-- The column assignment of lines 422-424 on the shared dataframe. -/
def augmentDF (df : List RowX) : List RowX :=
  df.map augmentRow

/-- The error-pivot entries a stop criterion's Newton facet reads from the
dataframe state, using the stored `RootError_Plot` column. -/
def errEntries (df : List RowX) (sc : String) : List (ℚ × ℚ × Option ℚ) :=
  (df.filter (fun r => r.base.method == "Newton" && r.base.stopCriterion == sc)).filterMap
    (fun r =>
      match r.base.precisionRho, r.base.x0 with
      | some y, some x => some (y, round1 x, r.rootErrorPlotCol)
      | _, _ => none)

/-- One iteration of the stop-criterion loop of `main`: mutate the shared
dataframe by assigning the error columns, then build the facet's
error-pivot entries from the mutated state. -/
def processCriterion (df : List RowX) (sc : String) :
    List RowX × List (ℚ × ℚ × Option ℚ) :=
  (augmentDF df, errEntries (augmentDF df) sc)

/-- The whole stop-criterion loop of `main`: the dataframe state is
threaded through the iterations, and each iteration emits its facet's
error-pivot entries. -/
def runPipeline : List RowX → List String → List RowX × List (List (ℚ × ℚ × Option ℚ))
  | df, [] => (df, [])
  | df, sc :: rest =>
    let step := processCriterion df sc
    let tail := runPipeline step.1 rest
    (tail.1, step.2 :: tail.2)

/-! ## Helper lemmas -/

theorem roundHalfEven_intCast (k : ℤ) : roundHalfEven (k : ℚ) = k := by
  simp only [roundHalfEven, Int.floor_intCast, sub_self]
  norm_num

theorem round1_idem (q : ℚ) : round1 (round1 q) = round1 q := by
  unfold round1
  rw [div_mul_cancel₀ _ (by norm_num : (10 : ℚ) ≠ 0), roundHalfEven_intCast]

theorem qmin?_eq_none {l : List ℚ} (h : qmin? l = none) : l = [] := by
  cases l with
  | nil => rfl
  | cons x xs =>
    rw [qmin?] at h
    cases hxs : qmin? xs <;> rw [hxs] at h <;> simp at h

theorem qmax?_eq_none {l : List ℚ} (h : qmax? l = none) : l = [] := by
  cases l with
  | nil => rfl
  | cons x xs =>
    rw [qmax?] at h
    cases hxs : qmax? xs <;> rw [hxs] at h <;> simp at h

theorem qmin?_mem {l : List ℚ} {m : ℚ} (h : qmin? l = some m) : m ∈ l := by
  induction l generalizing m with
  | nil => simp [qmin?] at h
  | cons x xs ih =>
    rw [qmin?] at h
    cases hxs : qmin? xs with
    | none => rw [hxs] at h; simp at h; simp [h]
    | some m' =>
      rw [hxs] at h
      simp at h
      rcases min_choice x m' with hc | hc <;> rw [hc] at h
      · simp [h]
      · exact List.mem_cons_of_mem _ (h ▸ ih hxs)

theorem qmin?_le {l : List ℚ} {m : ℚ} (h : qmin? l = some m) :
    ∀ a ∈ l, m ≤ a := by
  induction l generalizing m with
  | nil => simp [qmin?] at h
  | cons x xs ih =>
    rw [qmin?] at h
    cases hxs : qmin? xs with
    | none =>
      rw [hxs] at h
      simp only [Option.some.injEq] at h
      subst h
      have hnil := qmin?_eq_none hxs
      subst hnil
      intro a ha
      simp at ha
      simp [ha]
    | some m' =>
      rw [hxs] at h
      simp only [Option.some.injEq] at h
      intro a ha
      rcases List.mem_cons.mp ha with rfl | ha'
      · exact h ▸ min_le_left _ _
      · exact le_trans (h ▸ min_le_right x m') (ih hxs a ha')

theorem qmax?_mem {l : List ℚ} {m : ℚ} (h : qmax? l = some m) : m ∈ l := by
  induction l generalizing m with
  | nil => simp [qmax?] at h
  | cons x xs ih =>
    rw [qmax?] at h
    cases hxs : qmax? xs with
    | none => rw [hxs] at h; simp at h; simp [h]
    | some m' =>
      rw [hxs] at h
      simp at h
      rcases max_choice x m' with hc | hc <;> rw [hc] at h
      · simp [h]
      · exact List.mem_cons_of_mem _ (h ▸ ih hxs)

theorem qmax?_ge {l : List ℚ} {m : ℚ} (h : qmax? l = some m) :
    ∀ a ∈ l, a ≤ m := by
  induction l generalizing m with
  | nil => simp [qmax?] at h
  | cons x xs ih =>
    rw [qmax?] at h
    cases hxs : qmax? xs with
    | none =>
      rw [hxs] at h
      simp only [Option.some.injEq] at h
      subst h
      have hnil := qmax?_eq_none hxs
      subst hnil
      intro a ha
      simp at ha
      simp [ha]
    | some m' =>
      rw [hxs] at h
      simp only [Option.some.injEq] at h
      intro a ha
      rcases List.mem_cons.mp ha with rfl | ha'
      · exact h ▸ le_max_left _ _
      · exact le_trans (ih hxs a ha') (h ▸ le_max_right x m')

theorem posVals_pos {cells : List (Option ℚ)} {v : ℚ}
    (h : v ∈ posVals cells) : 0 < v := by
  have := (List.mem_filter.mp h).2
  exact of_decide_eq_true this

/-! ## C1 — scale selection -/

theorem lab7Scale_nil (cells : List (Option ℚ)) (h : posVals cells = []) :
    lab7ScaleNorm cells = Scale.log (1 / 10 ^ 16) 1 := by
  unfold lab7ScaleNorm
  rw [h]
  norm_num [qmin?, qmax?]

theorem lab7Scale_pos (cells : List (Option ℚ)) (mn mx : ℚ)
    (h1 : qmin? (posVals cells) = some mn)
    (h2 : qmax? (posVals cells) = some mx) :
    lab7ScaleNorm cells = if mn < mx then Scale.log mn mx else Scale.linear := by
  have h0 : 0 < mn := posVals_pos (qmin?_mem h1)
  unfold lab7ScaleNorm
  rw [h1, h2]
  simp only [Option.getD_some]
  by_cases hlt : mn < mx
  · rw [if_pos ⟨h0, hlt⟩, if_pos hlt]
  · rw [if_neg (fun hc => hlt hc.2), if_neg hlt]

theorem lab5Scale_nil (cells : List (Option ℚ)) (h : posVals cells = []) :
    lab5ScaleNorm cells = Scale.linear := by
  unfold lab5ScaleNorm
  rw [h]
  cases qmax? (finiteVals cells) <;> simp [qmin?]

theorem lab5Scale_pos (cells : List (Option ℚ)) (mn mx : ℚ)
    (h1 : qmin? (posVals cells) = some mn)
    (h2 : qmax? (finiteVals cells) = some mx) :
    lab5ScaleNorm cells = Scale.log mn mx := by
  unfold lab5ScaleNorm
  rw [h1, h2]

/-- C1, counterexample: a grid whose finite values are all `≤ 0`
(`[-1, 0]`) gets the **log** scale from the Lab7 normalizer — with the
substituted default bounds `[1e-16, 1.0]` — not the linear scale the claim
requires; and the Lab5 normalizer picks the log scale even when the
smallest positive value equals the largest finite value (`min >= max`,
here `5 >= 5`), where the claim requires linear. -/
theorem scale_claim_counterexample :
    lab7ScaleNorm [some (-1), some 0] = Scale.log (1 / 10 ^ 16) 1 ∧
    lab7ScaleNorm [some (-1), some 0] ≠ Scale.linear ∧
    lab5ScaleNorm [some 5] = Scale.log 5 5 ∧
    lab5ScaleNorm [some 5] ≠ Scale.linear := by
  have h7 := lab7Scale_nil [some (-1), some 0] (by decide)
  have h5 := lab5Scale_pos [some 5] 5 5 (by decide) (by decide)
  refine ⟨h7, ?_, h5, ?_⟩
  · rw [h7]; simp
  · rw [h5]; simp

/-- C1, amended: the Lab7 normalizer selects the log scale with bounds
`[min, max]` (`min`/`max` the smallest/largest strictly-positive finite
cell value) iff such a `min` exists and `min < max`; when **no** positive
finite value exists it substitutes the defaults and selects the log scale
with bounds `[1e-16, 1.0]`.  The Lab5 normalizer selects the log scale
with bounds `[min positive, max finite]` whenever a strictly-positive
finite value exists — even when the bounds coincide — and the linear
scale otherwise. -/
theorem scale_selection :
    (∀ cells : List (Option ℚ), posVals cells = [] →
      lab7ScaleNorm cells = Scale.log (1 / 10 ^ 16) 1) ∧
    (∀ (cells : List (Option ℚ)) (mn mx : ℚ),
      qmin? (posVals cells) = some mn → qmax? (posVals cells) = some mx →
      lab7ScaleNorm cells = if mn < mx then Scale.log mn mx else Scale.linear) ∧
    (∀ cells : List (Option ℚ), posVals cells = [] →
      lab5ScaleNorm cells = Scale.linear) ∧
    (∀ (cells : List (Option ℚ)) (mn mx : ℚ),
      qmin? (posVals cells) = some mn → qmax? (finiteVals cells) = some mx →
      lab5ScaleNorm cells = Scale.log mn mx) :=
  ⟨lab7Scale_nil, lab7Scale_pos, lab5Scale_nil, lab5Scale_pos⟩

/-- C1 witness: the amended characterizations evaluated on concrete
grids. -/
theorem scale_selection_witness :
    lab7ScaleNorm [some (-2)] = Scale.log (1 / 10 ^ 16) 1 ∧
    lab7ScaleNorm [some 2, some 3] = Scale.log 2 3 ∧
    lab5ScaleNorm [some (-2)] = Scale.linear ∧
    lab5ScaleNorm [none, some 2, some 3] = Scale.log 2 3 := by
  refine ⟨scale_selection.1 _ (by decide), ?_,
    scale_selection.2.2.1 _ (by decide),
    scale_selection.2.2.2 _ 2 3 (by decide) (by decide)⟩
  have h := scale_selection.2.1 [some 2, some 3] 2 3 (by decide) (by decide)
  rw [if_pos (by decide : (2:ℚ) < 3)] at h
  exact h

/-! ## C8 — textual sentinel normalization -/

/-- C8, counterexample: the Lab6 ingestor replaces the textual sentinel
`"INF"` with *missing*, not positive infinity, and the Lab7 ingestor does
not replace `"INF"` at all (its replace list only holds the lower-case
spellings), so the claim that every case-insensitive `"INF"` becomes
positive infinity before coercion is false. -/
theorem sentinel_claim_counterexample :
    lab6Replace (Cell.text "INF") = Cell.missing ∧
    Cell.missing ≠ Cell.posInf ∧
    lab7Replace (Cell.text "INF") = Cell.text "INF" ∧
    lab5Replace (Cell.text "iNf") = Cell.text "iNf" := by
  decide

/-- C8, amended: all three ingestors replace `"NAN"/"nan"/"NaN"` with
missing before numeric coercion.  Only the Lab5 ingestor maps the exact
spellings `"INF"/"inf"/"Inf"` to positive infinity and
`"-INF"/"-inf"/"-Inf"` to negative infinity (other casings are left to
the numeric coercion); the Lab6 ingestor maps those six spellings to
missing; the Lab7 ingestor maps only `"inf"/"Inf"/"-inf"/"-Inf"` to
missing and leaves `"INF"/"-INF"` untouched at the replace step.
Numeric cells are never altered by the replace step. -/
theorem sentinel_replacement :
    (∀ s ∈ ["NAN", "nan", "NaN"],
      lab5Replace (Cell.text s) = Cell.missing ∧
      lab6Replace (Cell.text s) = Cell.missing ∧
      lab7Replace (Cell.text s) = Cell.missing) ∧
    (∀ s ∈ ["INF", "inf", "Inf"], lab5Replace (Cell.text s) = Cell.posInf) ∧
    (∀ s ∈ ["-INF", "-inf", "-Inf"], lab5Replace (Cell.text s) = Cell.negInf) ∧
    (∀ s ∈ ["INF", "inf", "Inf", "-INF", "-inf", "-Inf"],
      lab6Replace (Cell.text s) = Cell.missing) ∧
    (∀ s ∈ ["inf", "Inf", "-inf", "-Inf"],
      lab7Replace (Cell.text s) = Cell.missing) ∧
    (∀ s ∈ ["INF", "-INF"], lab7Replace (Cell.text s) = Cell.text s) ∧
    (∀ q : ℚ, lab5Replace (Cell.num q) = Cell.num q ∧
      lab6Replace (Cell.num q) = Cell.num q ∧
      lab7Replace (Cell.num q) = Cell.num q) := by
  refine ⟨?_, ?_, ?_, ?_, ?_, ?_, ?_⟩
  · intro s hs; fin_cases hs <;> exact ⟨by decide, by decide, by decide⟩
  · intro s hs; fin_cases hs <;> decide
  · intro s hs; fin_cases hs <;> decide
  · intro s hs; fin_cases hs <;> decide
  · intro s hs; fin_cases hs <;> decide
  · intro s hs; fin_cases hs <;> decide
  · intro q; exact ⟨rfl, rfl, rfl⟩

/-- C8 witness: the amended characterization evaluated on concrete
cells. -/
theorem sentinel_replacement_witness :
    lab5Replace (Cell.text "NAN") = Cell.missing ∧
    lab5Replace (Cell.text "INF") = Cell.posInf ∧
    lab6Replace (Cell.text "-Inf") = Cell.missing ∧
    lab7Replace (Cell.text "-INF") = Cell.text "-INF" :=
  ⟨(sentinel_replacement.1 "NAN" (by decide)).1,
   sentinel_replacement.2.1 "INF" (by decide),
   sentinel_replacement.2.2.2.1 "-Inf" (by decide),
   sentinel_replacement.2.2.2.2.2.1 "-INF" (by decide)⟩

/-! ## C3 — plain-table cell formatting -/

theorem roundHalfEven_one : roundHalfEven 1 = 1 := by
  simpa using roundHalfEven_intCast 1

theorem roundHalfEven_ten : roundHalfEven 10 = 10 := by
  simpa using roundHalfEven_intCast 10

theorem clog10_1e5 : Nat.clog 10 100000 = 5 := by
  have h : (100000 : ℕ) = 10 ^ 5 := by norm_num
  rw [h, Nat.clog_pow _ _ (by norm_num)]

theorem exp10_em5 : exp10 (1/100000) = -5 := by
  unfold exp10
  rw [if_neg (by norm_num : ¬(1 ≤ (1:ℚ)/100000))]
  rw [show ((1:ℚ)/100000)⁻¹ = ((100000 : ℤ) : ℚ) by norm_num]
  rw [Int.ceil_intCast]
  rw [show (100000 : ℤ).toNat = 100000 from rfl]
  norm_num [clog10_1e5]

theorem mant10_em5 : mant10 (1/100000) = 10 := by
  unfold mant10
  rw [exp10_em5]
  rw [show (1/100000 : ℚ) / (10 : ℚ) ^ (-5 : ℤ) * 10 = 10 by norm_num]
  exact roundHalfEven_ten

theorem sci1_em5 : sci1 (1/100000) = "1.0e-05" := by
  unfold sci1
  rw [if_neg (by norm_num : ¬((1:ℚ)/100000 = 0)),
    if_neg (by norm_num : ¬((1:ℚ)/100000 < 0))]
  unfold sci1Aux
  rw [mant10_em5, exp10_em5]
  decide

theorem format5f_em5 : format5f (1/100000) = "0.00001" := by
  unfold format5f formatFixed
  rw [if_neg (by norm_num : ¬((1:ℚ)/100000 < 0))]
  unfold formatFixedAux
  rw [show (1/100000 : ℚ) * 10 ^ 5 = 1 by norm_num, roundHalfEven_one]
  decide

theorem minErr_em5 :
    min |(1:ℚ)/100000 - refRoot1| |(1:ℚ)/100000 - refRoot2| = 1/100000 := by
  norm_num [refRoot1, refRoot2, abs_of_nonneg]

theorem formatRootErrorPl_success (v : ℚ) :
    formatRootErrorPl 0 (some v) =
      format5f v ++ " (Błąd: " ++ sci1 (min |v - refRoot1| |v - refRoot2|) ++ ")" :=
  rfl

/-- C3, counterexample: the plain-table value cell uses Polish failure
markers and the Polish word `Błąd`, not the `ERR(<code>)` / `err:` forms
the claim quotes — for `status=1` the cell reads `"BŁĄD (MaxIter)"`, not
`"ERR(1)"`, and for `status=0, value=0.00001` it reads
`"0.00001 (Błąd: 1.0e-05)"`, not `"0.00001 (err: 1.0e-05)"`. -/
theorem format_claim_counterexample :
    formatRootErrorPl 1 (some (1/100000)) = "BŁĄD (MaxIter)" ∧
    formatRootErrorPl 1 (some (1/100000)) ≠ "ERR(1)" ∧
    formatRootErrorPl 0 (some (1/100000)) = "0.00001 (Błąd: 1.0e-05)" ∧
    formatRootErrorPl 0 (some (1/100000)) ≠ "0.00001 (err: 1.0e-05)" := by
  have h : formatRootErrorPl 0 (some (1/100000)) = "0.00001 (Błąd: 1.0e-05)" := by
    rw [formatRootErrorPl_success, minErr_em5, format5f_em5, sci1_em5]
    decide
  exact ⟨rfl, by decide, h, by rw [h]; decide⟩

/-- C3, amended: for `status == 1` the cell reads `"BŁĄD (MaxIter)"`, for
`status == 2` `"BŁĄD (Stagnacja)"`, for any other non-zero status
`"BŁĄD (<code>)"` — regardless of the value; for `status == Success` with
a missing value, `"NaN"`; for `status == Success` with a present value,
the value to 5 decimals followed by the absolute error to the nearest
reference root (0 and −1) in scientific notation after the Polish tag
`Błąd:` — so for `status=0, value=0.00001` the cell reads
`"0.00001 (Błąd: 1.0e-05)"`. -/
theorem table_cell_formatting :
    (∀ r : Option ℚ, formatRootErrorPl 1 r = "BŁĄD (MaxIter)") ∧
    (∀ r : Option ℚ, formatRootErrorPl 2 r = "BŁĄD (Stagnacja)") ∧
    (∀ s : ℤ, s ≠ 0 → s ≠ 1 → s ≠ 2 →
      ∀ r : Option ℚ, formatRootErrorPl s r = "BŁĄD (" ++ toString s ++ ")") ∧
    formatRootErrorPl 0 none = "NaN" ∧
    (∀ v : ℚ, formatRootErrorPl 0 (some v) =
      format5f v ++ " (Błąd: " ++ sci1 (min |v - refRoot1| |v - refRoot2|) ++ ")") ∧
    formatRootErrorPl 0 (some (1/100000)) = "0.00001 (Błąd: 1.0e-05)" := by
  refine ⟨fun r => rfl, fun r => rfl, ?_, rfl, formatRootErrorPl_success, ?_⟩
  · intro s h0 h1 h2 r
    unfold formatRootErrorPl
    rw [if_neg h1, if_neg h2, if_pos h0]
  · rw [formatRootErrorPl_success, minErr_em5, format5f_em5, sci1_em5]
    decide

/-- C3 witness: the general non-zero-status clause applied at the
concrete status code 3. -/
theorem table_cell_formatting_witness :
    formatRootErrorPl 3 none = "BŁĄD (3)" :=
  (table_cell_formatting.2.2.1 3 (by decide) (by decide) (by decide) none).trans
    (by decide)

/-! ## C2 — sentinel substitution -/

theorem rootError_success (v : ℚ) :
    rootError 0 (some v) = some (min |v - refRoot1| |v - refRoot2|) :=
  rfl

/-- C2, counterexample: the substituted proxy is the fixed constant
`10.0`, which is **not** `≥` every genuine finite error — a successful row
with root `100` has genuine error `100 > 10`.  Moreover a `Success` row
with a missing root *is* changed by the substitution (filled with the
proxy), so the claim's first clause fails on such rows as well. -/
theorem sentinel_value_counterexample :
    rootError 0 (some 100) = some 100 ∧
    rootErrorPlot 1 none = maxPossibleErrorProxy ∧
    maxPossibleErrorProxy < 100 ∧
    rootError 0 none = none ∧
    rootErrorPlot 0 none = maxPossibleErrorProxy := by
  refine ⟨?_, rfl, by norm_num [maxPossibleErrorProxy], rfl, rfl⟩
  rw [rootError_success]
  norm_num [refRoot1, refRoot2, abs_of_nonneg]

/-- C2, amended: for every row with `status = Success` and a *present*
root, substitution leaves the displayed error value unchanged (the grid
shows the genuine error); a cell is filled with the proxy exactly when
the outcome is missing or the status is not `Success`; the proxy is the
fixed constant `10.0` (not guaranteed to dominate every genuine error);
and the textual tables never show the proxy — every non-`Success` row is
rendered as an explicit `BŁĄD` failure marker. -/
theorem sentinel_substitution :
    (∀ v : ℚ, rootError 0 (some v) = some (rootErrorPlot 0 (some v))) ∧
    (∀ (s : ℤ) (r : Option ℚ), rootError s r = none ↔ s ≠ 0 ∨ r = none) ∧
    (∀ (s : ℤ) (r : Option ℚ), rootError s r = none →
      rootErrorPlot s r = maxPossibleErrorProxy) ∧
    (∀ (s : ℤ) (r : Option ℚ), s ≠ 0 →
      formatRootErrorPl s r = "BŁĄD (MaxIter)" ∨
      formatRootErrorPl s r = "BŁĄD (Stagnacja)" ∨
      formatRootErrorPl s r = "BŁĄD (" ++ toString s ++ ")") := by
  refine ⟨fun v => rfl, ?_, ?_, ?_⟩
  · intro s r
    by_cases hs : s = 0 <;> simp [rootError, hs, Option.map_eq_none']
  · intro s r h
    simp [rootErrorPlot, h]
  · intro s r hs
    by_cases h1 : s = 1
    · exact Or.inl (by simp [formatRootErrorPl, h1])
    by_cases h2 : s = 2
    · exact Or.inr (Or.inl (by simp [formatRootErrorPl, h1, h2]))
    refine Or.inr (Or.inr ?_)
    unfold formatRootErrorPl
    rw [if_neg h1, if_neg h2, if_pos hs]

/-- C2 witness: the amended characterization at concrete rows. -/
theorem sentinel_substitution_witness :
    rootErrorPlot 2 (some 5) = maxPossibleErrorProxy ∧
    (formatRootErrorPl 2 (some 5) = "BŁĄD (MaxIter)" ∨
     formatRootErrorPl 2 (some 5) = "BŁĄD (Stagnacja)" ∨
     formatRootErrorPl 2 (some 5) = "BŁĄD (" ++ toString (2 : ℤ) ++ ")") :=
  ⟨sentinel_substitution.2.2.1 2 (some 5) rfl,
   sentinel_substitution.2.2.2 2 (some 5) (by decide)⟩

/-! ## C4 — duplicate-key aggregation -/

theorem round1_zero : round1 0 = 0 := by
  have h : (0 : ℚ) * 10 = 0 := by norm_num
  rw [round1, h]
  rw [show roundHalfEven 0 = 0 by simpa using roundHalfEven_intCast 0]
  norm_num

/-- A Newton row of the duplicate-key example: stop criterion `Stop_dX`,
coordinate `x0 = 0`, precision `1`, and the given metric values. -/
def dupRow (root iter : Option ℚ) : Row where
  method := "Newton"
  stopCriterion := "Stop_dX"
  x0 := some 0
  x1 := none
  precisionRho := some 1
  root := root
  iterations := iter
  finalError := none
  status := 0

/-- C4, counterexample: the Lab5 grid builder aggregates duplicate
`(N, M)` groups with the **mean** — the duplicate group `[1, 3]` (an
error-like metric, `MaxAbsoluteError`) yields `2`, which is neither the
first-seen value nor the min (both `1`). -/
theorem aggregation_claim_counterexample :
    lab5GridCell [(2, 3, some 1), (2, 3, some 3)] 2 3 = some 2 ∧
    aggFirst [1, 3] = some 1 ∧
    aggMin [1, 3] = some 1 ∧
    (2 : ℚ) ≠ 1 := by
  refine ⟨?_, rfl, by decide, by norm_num⟩
  have h : lab5GridCell [(2, 3, some 1), (2, 3, some 3)] 2 3 = aggMean [1, 3] := rfl
  rw [h]
  norm_num [aggMean]

/-- C4, amended: the Lab7 grid builder aggregates a duplicate group with
the first-seen value by default (the iteration-count pivots) and with the
minimum for the root-error display metric; the Lab5/Lab6 grid builder
aggregates duplicate `(N, M)` groups with the mean of the group's
non-missing values. -/
theorem duplicate_aggregation :
    (∀ v1 v2 : ℚ,
      pivotNewtonIterCell [dupRow none (some v1), dupRow none (some v2)]
        "Stop_dX" 1 (round1 0) = some v1) ∧
    (∀ a b : ℚ, aggMin [a, b] = some (min a b)) ∧
    (∀ v1 v2 : ℚ,
      lab5GridCell [(2, 3, some v1), (2, 3, some v2)] 2 3 = some ((v1 + v2) / 2)) ∧
    pivotNewtonErrCell [dupRow (some (1/5)) none, dupRow (some (-1/10)) none]
      "Stop_dX" 1 (round1 0) = some (1/10) := by
  refine ⟨?_, fun a b => rfl, ?_, ?_⟩
  · intro v1 v2
    simp [pivotNewtonIterCell, newtonFacetRows, pivotEntries, gridCell, aggFirst,
      dupRow]
  · intro v1 v2
    have h : lab5GridCell [(2, 3, some v1), (2, 3, some v2)] 2 3 =
        aggMean [v1, v2] := rfl
    rw [h]
    simp [aggMean]
  · have h1 : rootErrorPlot 0 (some (1/5)) = 1/5 := by
      unfold rootErrorPlot
      rw [rootError_success, Option.getD_some]
      norm_num [refRoot1, refRoot2, abs_of_nonneg, min_def]
    have h2 : rootErrorPlot 0 (some (-1/10)) = 1/10 := by
      unfold rootErrorPlot
      rw [rootError_success, Option.getD_some]
      norm_num [refRoot1, refRoot2, abs_of_nonpos, abs_of_nonneg, min_def]
    simp [pivotNewtonErrCell, newtonFacetRows, pivotEntries, gridCell, dupRow,
      h1, h2, aggMin]
    have h3 : rootErrorPlot 0 (some ((5:ℚ)⁻¹)) = 5⁻¹ := by
      rw [show ((5:ℚ)⁻¹) = 1/5 by norm_num, h1]
    rw [h3]
    norm_num

/-! ## C5 — axis bucketing -/

theorem round1_em6 : round1 (1/1000000) = 0 := by
  rw [round1, show (1/1000000 : ℚ) * 10 = 1/100000 by norm_num]
  have h : roundHalfEven (1/100000) = 0 := by
    have hf : ⌊(1/100000 : ℚ)⌋ = 0 := by norm_num
    unfold roundHalfEven
    rw [hf]
    rw [if_pos (by norm_num)]
  rw [h]
  norm_num

/-- A Newton row whose precision is the non-bucketed value `1e-6`. -/
def rowC5 : Row where
  method := "Newton"
  stopCriterion := "Stop_dX"
  x0 := some 0
  x1 := none
  precisionRho := some (1/1000000)
  root := none
  iterations := some 3
  finalError := none
  status := 0

/-- C5, counterexample: the precision (row-axis) coordinate is *not*
bucketed — a row with `PrecisionRho = 1e-6` puts the raw value `1e-6` on
the row axis, although its one-decimal rounding is `0`; so not every
coordinate placed on an axis is bucketed by the rounding rule. -/
theorem bucketing_claim_counterexample :
    rowAxis (pivotEntries (newtonFacetRows [rowC5] "Stop_dX") Row.x0 Row.iterations)
      = [1/1000000] ∧
    round1 (1/1000000) ≠ 1/1000000 := by
  constructor
  · simp [rowAxis, pivotEntries, newtonFacetRows, rowC5]
  · rw [round1_em6]
    norm_num

/-- C5, amended: only the swept (column-axis) coordinate is bucketed, by
rounding to one decimal digit before grouping — every value placed on the
column axis is a fixed point of the rounding — and the bucketing is
idempotent; the precision row-axis keeps its raw values. -/
theorem axis_bucketing :
    (∀ q : ℚ, round1 (round1 q) = round1 q) ∧
    (∀ (rows : List Row) (xCol valCol : Row → Option ℚ) (x : ℚ),
      x ∈ colAxis (pivotEntries rows xCol valCol) → round1 x = x) := by
  refine ⟨round1_idem, ?_⟩
  intro rows xCol valCol x hx
  rw [colAxis, List.mem_dedup] at hx
  rcases List.mem_map.mp hx with ⟨e, he, hex⟩
  rcases List.mem_filterMap.mp he with ⟨r, _, hre⟩
  cases hy : r.precisionRho with
  | none => rw [hy] at hre; simp at hre
  | some y =>
    cases hxv : xCol r with
    | none => rw [hy, hxv] at hre; simp at hre
    | some xv =>
      rw [hy, hxv] at hre
      simp only [Option.some.injEq] at hre
      rw [← hex, ← hre]
      exact round1_idem xv

/-- C5 witness: the column-axis clause evaluated on a concrete
one-row dataset. -/
theorem axis_bucketing_witness : round1 (round1 0) = round1 0 :=
  axis_bucketing.2 [rowC5] Row.x0 Row.iterations (round1 0)
    (by simp [colAxis, pivotEntries, newtonFacetRows, rowC5])

/-! ## C6 — facet partition -/

/-- A Secant row of the facet example: stop criterion `Stop_dX`, the
given `x0`, and `x1 = 0`. -/
def secRow (x0v : ℚ) : Row where
  method := "Secant"
  stopCriterion := "Stop_dX"
  x0 := some x0v
  x1 := some 0
  precisionRho := some 1
  root := none
  iterations := some 1
  finalError := none
  status := 0

/-- The facet example dataset: three Secant rows with `x0 = -1, 0, 1`. -/
def dfC6 : List Row := [secRow (-1), secRow 0, secRow 1]

theorem isclose_0_neg1 : isclose 0 (-1) = false := by
  simp only [isclose, decide_eq_false_iff_not, not_le]
  norm_num

theorem isclose_0_1 : isclose 0 1 = false := by
  simp only [isclose, decide_eq_false_iff_not, not_le]
  norm_num

/-- C6, counterexample: with Secant rows at `x0 = -1, 0, 1`, the inferred
bounds are `(-1, 1)`, so `main` enumerates only the Secant facets fixed at
`-1` and `1`; the row with `x0 = 0` belongs to **no** enumerated heatmap
facet — facet enumeration is not a partition. -/
theorem facet_claim_counterexample :
    secRow 0 ∈ dfC6 ∧
    ((mainFacets dfC6).filter (memFacet (secRow 0))).length = 0 := by
  refine ⟨by simp [dfC6], ?_⟩
  have hb : inferBounds dfC6 = (-1, 1) := by decide
  have hu : uniqueSC dfC6 = ["Stop_dX"] := by decide
  have hm : mainFacets dfC6 =
      [Facet.newton "Stop_dX", Facet.secant "Stop_dX" (-1),
       Facet.secant "Stop_dX" 1] := by
    unfold mainFacets
    rw [hu, hb]
    rfl
  rw [hm]
  simp [memFacet, secRow, isclose_0_neg1, isclose_0_1]

theorem count_pair_map (ms : List String) (sc rm rsc : String) :
    (ms.map (fun m => (m, sc))).count (rm, rsc) =
      if sc = rsc then ms.count rm else 0 := by
  induction ms with
  | nil => by_cases h : sc = rsc <;> simp [h]
  | cons m ms ih =>
    simp only [List.map_cons, List.count_cons, ih, beq_iff_eq, Prod.mk.injEq]
    by_cases h : sc = rsc <;> by_cases hm : m = rm <;> simp [h, hm]

theorem count_pair_flatMap (scs ms : List String) (rm rsc : String) :
    (scs.flatMap (fun sc => ms.map (fun m => (m, sc)))).count (rm, rsc) =
      scs.count rsc * ms.count rm := by
  induction scs with
  | nil => simp
  | cons sc scs ih =>
    rw [List.flatMap_cons, List.count_append, ih, count_pair_map,
      List.count_cons]
    by_cases h : sc = rsc
    · simp [h, Nat.add_mul]
      omega
    · simp [h, Nat.add_mul]

/-- C6, amended: the *table* facet enumeration — the product of the
distinct stop criteria and the distinct methods, filtered by equality —
assigns every input row to exactly one `(method, stop-criterion)` facet;
the *heatmap* enumeration is not exhaustive (a Secant row whose `x0`
matches neither inferred bound belongs to no heatmap facet). -/
theorem facet_pair_partition :
    ∀ (df : List Row) (r : Row), r ∈ df →
      (tableFacetPairs df).count (r.method, r.stopCriterion) = 1 := by
  intro df r hr
  rw [tableFacetPairs, count_pair_flatMap, uniqueSC, uniqueMethods,
    List.count_dedup, List.count_dedup]
  rw [if_pos (List.mem_map_of_mem _ hr), if_pos (List.mem_map_of_mem _ hr)]

/-- C6 witness: the partition property evaluated on the concrete
three-row dataset. -/
theorem facet_pair_partition_witness :
    (tableFacetPairs dfC6).count ((secRow 0).method, (secRow 0).stopCriterion)
      = 1 :=
  facet_pair_partition dfC6 (secRow 0) (by simp [dfC6])

/-! ## C7 — inferred bounds -/

/-- The bounds example dataset: `x0` values `0, 2`; `x1` values `-1, 1`. -/
def dfC7 : List Row :=
  [{ method := "Secant", stopCriterion := "Stop_dX", x0 := some 0,
     x1 := some (-1), precisionRho := some 1, root := none,
     iterations := some 1, finalError := none, status := 0 },
   { method := "Secant", stopCriterion := "Stop_dX", x0 := some 2,
     x1 := some 1, precisionRho := some 1, root := none,
     iterations := some 1, finalError := none, status := 0 }]

/-- C7, counterexample: `infer_bounds` pools **both** coordinate columns —
on a dataset with `x0 ∈ {0, 2}` and `x1 ∈ {-1, 1}` it returns `(-1, 2)`,
which is neither the min/max of the fixed coordinate `x0` (`(0, 2)`) nor
of the swept coordinate `x1` (`(-1, 1)`). -/
theorem bounds_claim_counterexample :
    inferBounds dfC7 = (-1, 2) ∧
    qmin? (dfC7.filterMap Row.x0) = some 0 ∧
    qmax? (dfC7.filterMap Row.x0) = some 2 ∧
    qmin? (dfC7.filterMap Row.x1) = some (-1) ∧
    qmax? (dfC7.filterMap Row.x1) = some 1 ∧
    ((-1 : ℚ), (2 : ℚ)) ≠ ((0 : ℚ), (2 : ℚ)) ∧
    ((-1 : ℚ), (2 : ℚ)) ≠ ((-1 : ℚ), (1 : ℚ)) := by
  decide

/-- C7, amended: `infer_bounds` returns the minimum and maximum of the
values pooled across *both* coordinate columns (`x0` and `x1`) of the
entire dataset; the min/max is NaN-tolerant (rows with missing
coordinates do not contribute); and when no values exist at all it falls
back to the default interval `(-1.4, 0.6)`. -/
theorem infer_bounds_pooled :
    (∀ (df : List Row) (a b : ℚ),
      qmin? (df.filterMap Row.x0 ++ df.filterMap Row.x1) = some a →
      qmax? (df.filterMap Row.x0 ++ df.filterMap Row.x1) = some b →
      inferBounds df = (a, b)) ∧
    (∀ df : List Row, df.filterMap Row.x0 ++ df.filterMap Row.x1 = [] →
      inferBounds df = (-7/5, 3/5)) ∧
    (∀ (df : List Row) (r : Row), r.x0 = none → r.x1 = none →
      inferBounds (r :: df) = inferBounds df) ∧
    (∀ (df : List Row) (a b : ℚ), inferBounds df = (a, b) →
      df.filterMap Row.x0 ++ df.filterMap Row.x1 ≠ [] →
      a ∈ df.filterMap Row.x0 ++ df.filterMap Row.x1 ∧
      b ∈ df.filterMap Row.x0 ++ df.filterMap Row.x1 ∧
      ∀ x ∈ df.filterMap Row.x0 ++ df.filterMap Row.x1, a ≤ x ∧ x ≤ b) := by
  refine ⟨?_, ?_, ?_, ?_⟩
  · intro df a b h1 h2
    simp only [inferBounds, h1, h2]
  · intro df h
    simp only [inferBounds, h, qmin?, qmax?]
  · intro df r h0 h1
    simp only [inferBounds, List.filterMap_cons, h0, h1]
  · intro df a b h hne
    cases hmin : qmin? (df.filterMap Row.x0 ++ df.filterMap Row.x1) with
    | none => exact absurd (qmin?_eq_none hmin) hne
    | some mn =>
      cases hmax : qmax? (df.filterMap Row.x0 ++ df.filterMap Row.x1) with
      | none => exact absurd (qmax?_eq_none hmax) hne
      | some mx =>
        rw [inferBounds] at h
        simp only [hmin, hmax] at h
        rcases Prod.mk.injEq .. ▸ h with ⟨ha, hb⟩
        subst ha
        subst hb
        exact ⟨qmin?_mem hmin, qmax?_mem hmax,
          fun x hx => ⟨qmin?_le hmin x hx, qmax?_ge hmax x hx⟩⟩

/-- C7 witness: the pooled characterization evaluated on the concrete
dataset. -/
theorem infer_bounds_pooled_witness : inferBounds dfC7 = (-1, 2) :=
  infer_bounds_pooled.1 dfC7 (-1) 2 (by decide) (by decide)

/-! ## C9 — row retention at ingestion -/

/-- A raw Lab7 CSV row whose grouping coordinate `x0` is the textual
sentinel `"NAN"` (missing after ingestion). -/
def rawC9 : RawRow where
  method := "Newton"
  stopCriterion := "Stop_dX"
  x0 := Cell.text "NAN"
  x1 := Cell.missing
  precisionRho := Cell.missing
  root := Cell.missing
  iterations := Cell.missing
  finalError := Cell.missing
  status := Cell.num 0

/-- C9, counterexample: the Lab7 ingestor drops **no** rows — a row whose
grouping coordinate `x0` is missing is retained in the ingested dataset
(with `x0 = none`), contradicting the claim that such rows are dropped
after ingestion. -/
theorem drop_claim_counterexample :
    (lab7Ingest [rawC9]).length = 1 ∧
    (lab7Ingest [rawC9]).map Row.x0 = [none] := by
  constructor
  · rfl
  · simp [lab7Ingest, lab7IngestRow, rawC9, lab7Replace, replaceWith, toNum]

/-- C9, amended: the Lab5/Lab6 ingestors drop exactly the rows with a
missing `N` or `M` grouping coordinate — rows with missing outcome values
but present coordinates are retained; the Lab7 ingestor retains every
row (rows with missing coordinates are only excluded later, when
pivoting). -/
theorem ingestion_row_retention :
    (∀ (rs : List Lab5Row) (r : Lab5Row),
      r ∈ lab5DropMissingCoords rs ↔ r ∈ rs ∧ r.n.isSome ∧ r.m.isSome) ∧
    (∀ rs : List RawRow, (lab7Ingest rs).length = rs.length) := by
  constructor
  · intro rs r
    simp [lab5DropMissingCoords, List.mem_filter, and_assoc]
  · intro rs
    simp [lab7Ingest]

/-! ## C10 — dataset mutation and facet order -/

/-- The pipeline example dataset: one successful Newton row, with the
derived error columns not yet assigned. -/
def dfC10 : List RowX :=
  [{ base := { method := "Newton", stopCriterion := "Stop_dX", x0 := some 0,
               x1 := none, precisionRho := some 1, root := some 0,
               iterations := none, finalError := none, status := 0 },
     rootErrorCol := none, rootErrorPlotCol := none }]

/-- C10, counterexample: the stop-criterion loop of `main` **mutates** the
shared ingested dataframe — after one iteration the dataframe has gained
the derived `RootError`/`RootError_Plot` columns, so it differs from the
dataframe the iteration started from. -/
theorem mutation_claim_counterexample :
    (processCriterion dfC10 "Stop_dX").1 ≠ dfC10 := by
  decide

theorem augmentRow_idem (r : RowX) : augmentRow (augmentRow r) = augmentRow r :=
  rfl

theorem augmentDF_idem (df : List RowX) :
    augmentDF (augmentDF df) = augmentDF df := by
  unfold augmentDF
  rw [List.map_map]
  rfl

/-- C10, amended: the dataset *is* mutated — each iteration of the
stop-criterion loop assigns the derived `RootError`/`RootError_Plot`
columns onto the shared dataframe — but the assignment is idempotent and
depends only on ingested columns, so every facet's artifact equals the one
computed from the once-augmented dataset and the processing order of the
facets is irrelevant to the artifacts produced. -/
theorem dataset_mutation_and_order :
    (∀ df : List RowX, augmentDF (augmentDF df) = augmentDF df) ∧
    (∀ (df : List RowX) (scs : List String),
      (runPipeline df scs).2 = scs.map (fun sc => errEntries (augmentDF df) sc)) := by
  refine ⟨augmentDF_idem, ?_⟩
  intro df scs
  induction scs generalizing df with
  | nil => rfl
  | cons sc rest ih =>
    simp only [runPipeline, processCriterion]
    rw [ih (augmentDF df), augmentDF_idem]
    simp

end CompMethods
